import Mathlib

/-!
Shallow embedding of the virtual-scrolling list component of this
repository (a Vue single-file component).  The script of that component
derives, from the props `data`, `itemHeight`, `keyField`, `buffer` and the
reactive state `scrollTop` / `containerHeight`, the computed values
`startIndex`, `endIndex`, `visibleData`, `offsetY` and `totalHeight`; the
template then renders one row per element of `visibleData`, keyed by
`item[keyField] || index`, handing `(item, startIndex + index)` to the
caller's slot.

Pixel quantities are embedded as rationals (JS numbers on which the code
only performs `+`, `-`, `*`, `/`, `Math.floor`, `Math.ceil`, `Math.max`
and `Math.min`), indices as integers, and the slice extraction follows
`Array.prototype.slice` semantics.
-/

namespace VirtualList

/-- A JavaScript field value, as far as key identity needs one. -/
inductive JSVal where
  | vnull
  | vundefined
  | vnum (q : ℚ)
  | vstr (s : String)
  | vbool (b : Bool)
deriving DecidableEq, Repr

/-- JS truthiness: `null`, `undefined`, `0`, `""` and `false` are falsy. -/
def JSVal.truthy : JSVal → Bool
  | .vnull => false
  | .vundefined => false
  | .vnum q => q ≠ 0
  | .vstr s => s ≠ ""
  | .vbool b => b

/-- A dataset record: a finite assignment of field names to values. -/
abbrev Item := List (String × JSVal)

/-- Field access `item[f]`: a missing field reads as `undefined`. -/
def getField (item : Item) (f : String) : JSVal :=
  (item.lookup f).getD .vundefined

/-- The component's props.  `data` is the dataset, `itemHeight` the fixed
per-row pixel height, `keyField` and `buffer` the two optional props.  The
`height` prop only feeds `updateContainerHeight`, whose resolved result is
the `containerHeight` state below, so it is not carried here. -/
structure Props where
  data : List Item
  itemHeight : ℚ
  keyField : Option String := none
  buffer : Option ℕ := none

/-- The component's reactive state: the scroll offset recorded by
`handleScroll` and the container height resolved by
`updateContainerHeight`. -/
structure ListState where
  scrollTop : ℚ
  containerHeight : ℚ

/-- Source constant `defaultKeyField`. -/
def defaultKeyField : String := "id"

/-- Source constant `defaultBuffer`. -/
def defaultBuffer : ℕ := 5

/-- Computed `keyField = props.keyField || defaultKeyField`: an absent or
empty (falsy) string is replaced by the default. -/
def keyField (p : Props) : String :=
  match p.keyField with
  | some s => if s = "" then defaultKeyField else s
  | none => defaultKeyField

/-- Computed `buffer = props.buffer || defaultBuffer`: an absent or zero
(falsy) value is replaced by the default. -/
def buffer (p : Props) : ℕ :=
  match p.buffer with
  | some b => if b = 0 then defaultBuffer else b
  | none => defaultBuffer

/-- Computed
`startIndex = Math.floor(Math.max(0, scrollTop - buffer * itemHeight) / itemHeight)`. -/
def startIndex (p : Props) (st : ListState) : ℤ :=
  ⌊max 0 (st.scrollTop - (buffer p : ℚ) * p.itemHeight) / p.itemHeight⌋

/-- Computed
`endIndex = Math.min(data.length - 1, Math.ceil((scrollTop + containerHeight + buffer * itemHeight) / itemHeight))`. -/
def endIndex (p : Props) (st : ListState) : ℤ :=
  min ((p.data.length : ℤ) - 1)
    ⌈(st.scrollTop + st.containerHeight + (buffer p : ℚ) * p.itemHeight) / p.itemHeight⌉

/-- `Array.prototype.slice(start, fin)` for integer arguments: both bounds
are clamped to `[0, length]`, negative values counting from the end, and
the elements at clamped indices `[s, e)` are extracted. -/
def jsSlice {α : Type} (l : List α) (start fin : ℤ) : List α :=
  let len : ℤ := l.length
  let s : ℤ := if start < 0 then max (len + start) 0 else min start len
  let e : ℤ := if fin < 0 then max (len + fin) 0 else min fin len
  (l.drop s.toNat).take (e - s).toNat

/-- Computed `visibleData = data.slice(startIndex, endIndex + 1)`. -/
def visibleData (p : Props) (st : ListState) : List Item :=
  jsSlice p.data (startIndex p st) (endIndex p st + 1)

/-- Computed `offsetY = startIndex * itemHeight`. -/
def offsetY (p : Props) (st : ListState) : ℚ :=
  (startIndex p st : ℚ) * p.itemHeight

/-- Computed `totalHeight = data.length * itemHeight`. -/
def totalHeight (p : Props) : ℚ :=
  (p.data.length : ℚ) * p.itemHeight

/-- The key of one rendered row: `item[keyField] || index`, where `index`
is the row's position inside `visibleData` (the `v-for` index). -/
def itemKey (p : Props) (item : Item) (index : ℕ) : JSVal :=
  let v := getField item (keyField p)
  if v.truthy then v else .vnum index

/-- The template's `v-for` over a list of rows beginning at `v-for` index
`index`: each row contributes its key, the item handed to the slot, and
the absolute index `startIndex + index` handed to the slot. -/
def renderRows (p : Props) (start : ℤ) : ℕ → List Item → List (JSVal × Item × ℤ)
  | _, [] => []
  | index, item :: rest =>
      (itemKey p item index, item, start + index) :: renderRows p start (index + 1) rest

/-- Everything the template emits for the current state: one
`(key, item, absoluteIndex)` triple per element of `visibleData`. -/
def renderedItems (p : Props) (st : ListState) : List (JSVal × Item × ℤ) :=
  renderRows p (startIndex p st) 0 (visibleData p st)

/-- Scenario props of the spec's Scenario A/B: `L = 100000`,
`itemHeightPx = 60`, `bufferItemCount = 3`. -/
def scenarioProps : Props :=
  { data := List.replicate 100000 [], itemHeight := 60, buffer := some 3 }

/-- A one-item dataset with `itemHeightPx = 10` and `bufferItemCount = 1`,
scrolled far past its content height. -/
def overscrollProps : Props :=
  { data := [[]], itemHeight := 10, buffer := some 1 }

/-- A six-item dataset with `itemHeightPx = 10` and `bufferItemCount = 1`. -/
def sixProps : Props :=
  { data := List.replicate 6 [], itemHeight := 10, buffer := some 1 }

/-- A two-item dataset whose second record carries the key value `0`
(present and non-null), with `itemHeightPx = 10`, `bufferItemCount = 1`. -/
def keyedProps : Props :=
  { data := [[("id", JSVal.vnum 7)], [("id", JSVal.vnum 0)]],
    itemHeight := 10, buffer := some 1 }

/-- Props that explicitly pass `buffer = 0`. -/
def zeroBufferProps : Props :=
  { data := List.replicate 20 [], itemHeight := 10, buffer := some 0 }

/-- Props with an empty dataset. -/
def emptyProps : Props :=
  { data := [], itemHeight := 10 }

/-! Helper lemmas: the effective buffer, floor/ceil evaluation, and
`Array.prototype.slice` facts. -/

theorem one_le_buffer (p : Props) : 1 ≤ buffer p := by
  unfold buffer
  cases p.buffer with
  | none => simp [defaultBuffer]
  | some b =>
    dsimp only
    split
    · simp [defaultBuffer]
    · omega

theorem startIndex_nonneg (p : Props) (st : ListState) (hh : 0 < p.itemHeight) :
    0 ≤ startIndex p st := by
  have h : (0:ℚ) ≤ max 0 (st.scrollTop - (buffer p : ℚ) * p.itemHeight) / p.itemHeight :=
    div_nonneg (le_max_left 0 _) hh.le
  exact Int.le_floor.mpr (by exact_mod_cast h)

theorem neg_one_le_endIndex (p : Props) (st : ListState) (hh : 0 < p.itemHeight)
    (hs : 0 ≤ st.scrollTop) (hc : 0 ≤ st.containerHeight) :
    -1 ≤ endIndex p st := by
  have hnum : (0:ℚ) ≤ st.scrollTop + st.containerHeight + (buffer p : ℚ) * p.itemHeight :=
    add_nonneg (add_nonneg hs hc) (mul_nonneg (by positivity) hh.le)
  have h2 : (0:ℤ) ≤
      ⌈(st.scrollTop + st.containerHeight + (buffer p : ℚ) * p.itemHeight) / p.itemHeight⌉ :=
    Int.ceil_nonneg (div_nonneg hnum hh.le)
  have h1 : (0:ℤ) ≤ (p.data.length : ℤ) := by positivity
  unfold endIndex
  omega

theorem floor_div_eq {q h : ℚ} {n : ℤ} (hh : 0 < h) (h1 : (n:ℚ) * h ≤ q)
    (h2 : q < ((n:ℚ) + 1) * h) : ⌊q / h⌋ = n := by
  rw [Int.floor_eq_iff]
  constructor
  · rw [le_div_iff₀ hh]; exact h1
  · rw [div_lt_iff₀ hh]; exact h2

theorem ceil_div_eq {q h : ℚ} {n : ℤ} (hh : 0 < h) (h1 : ((n:ℚ) - 1) * h < q)
    (h2 : q ≤ (n:ℚ) * h) : ⌈q / h⌉ = n := by
  rw [Int.ceil_eq_iff]
  constructor
  · rw [lt_div_iff₀ hh]; exact h1
  · rw [div_le_iff₀ hh]; exact h2

theorem startIndex_eval (p : Props) (st : ListState) (n : ℤ) (hh : 0 < p.itemHeight)
    (h1 : (n:ℚ) * p.itemHeight ≤ max 0 (st.scrollTop - (buffer p : ℚ) * p.itemHeight))
    (h2 : max 0 (st.scrollTop - (buffer p : ℚ) * p.itemHeight) < ((n:ℚ) + 1) * p.itemHeight) :
    startIndex p st = n :=
  floor_div_eq hh h1 h2

theorem endIndex_eval (p : Props) (st : ListState) (m : ℤ) (hh : 0 < p.itemHeight)
    (h1 : ((m:ℚ) - 1) * p.itemHeight <
      st.scrollTop + st.containerHeight + (buffer p : ℚ) * p.itemHeight)
    (h2 : st.scrollTop + st.containerHeight + (buffer p : ℚ) * p.itemHeight ≤
      (m:ℚ) * p.itemHeight) :
    endIndex p st = min ((p.data.length : ℤ) - 1) m := by
  unfold endIndex
  rw [ceil_div_eq hh h1 h2]

theorem jsSlice_nil {α : Type} (a b : ℤ) : jsSlice ([] : List α) a b = [] := by
  simp [jsSlice]

theorem jsSlice_eq_nil_of_le {α : Type} (l : List α) (a b : ℤ) (ha : 0 ≤ a)
    (hb0 : 0 ≤ b) (hba : b ≤ a) : jsSlice l a b = [] := by
  simp only [jsSlice]
  rw [if_neg (not_lt.mpr ha), if_neg (not_lt.mpr hb0)]
  have h1 : min b (l.length : ℤ) ≤ min a (l.length : ℤ) := min_le_min hba (le_refl _)
  have hz : (min b (l.length : ℤ) - min a (l.length : ℤ)).toNat = 0 := by omega
  rw [hz, List.take_zero]

theorem jsSlice_eq_nil_of_len_le {α : Type} (l : List α) (a b : ℤ) (ha0 : 0 ≤ a)
    (hlen : (l.length : ℤ) ≤ a) : jsSlice l a b = [] := by
  simp only [jsSlice]
  rw [if_neg (not_lt.mpr ha0), min_eq_right hlen]
  have ht : ((l.length : ℤ)).toNat = l.length := Int.toNat_natCast _
  rw [ht, List.drop_length, List.take_nil]

theorem jsSlice_get? {α : Type} (l : List α) (a b : ℤ) (ha : 0 ≤ a) (hb : 0 ≤ b)
    (i : ℕ) (hi : i < (jsSlice l a b).length) :
    (jsSlice l a b).get? i = l.get? (a.toNat + i) := by
  rcases le_or_lt a (l.length : ℤ) with hal | hal
  · have hsa : min a (l.length : ℤ) = a := min_eq_left hal
    simp only [jsSlice] at hi ⊢
    rw [if_neg (not_lt.mpr ha), if_neg (not_lt.mpr hb), hsa] at hi ⊢
    rw [List.length_take, List.length_drop] at hi
    have hik : i < (min b (l.length : ℤ) - a).toNat := lt_of_lt_of_le hi (min_le_left _ _)
    rw [List.get?_eq_getElem?, List.get?_eq_getElem?, List.getElem?_take_of_lt hik,
      List.getElem?_drop]
  · rw [jsSlice_eq_nil_of_len_le l a b ha hal.le] at hi
    simp at hi

theorem jsSlice_length_mono {α : Type} (l : List α) (a b1 b2 : ℤ) (hb1 : 0 ≤ b1)
    (h12 : b1 ≤ b2) : (jsSlice l a b1).length ≤ (jsSlice l a b2).length := by
  simp only [jsSlice]
  rw [if_neg (not_lt.mpr hb1), if_neg (not_lt.mpr (le_trans hb1 h12))]
  simp only [List.length_take, List.length_drop]
  have h1 : min b1 (l.length : ℤ) ≤ min b2 (l.length : ℤ) := min_le_min h12 (le_refl _)
  generalize (if a < 0 then max ((l.length : ℤ) + a) 0 else min a (l.length : ℤ)) = s
  exact min_le_min (by omega) (le_refl _)

theorem renderRows_get? (p : Props) (start : ℤ) (j : ℕ) (l : List Item) (i : ℕ) :
    (renderRows p start j l).get? i =
      (l.get? i).map (fun item => (itemKey p item (j + i), item, start + ((j + i : ℕ) : ℤ))) := by
  induction l generalizing j i with
  | nil => simp [renderRows]
  | cons head tail ih =>
    cases i with
    | zero => simp [renderRows]
    | succ n =>
      simp only [renderRows, List.get?_cons_succ, ih (j + 1) n]
      rw [show j + 1 + n = j + (n + 1) by omega]

/-! Claim theorems. -/

/-- C1 counterexample: with one item (`L = 1`), `itemHeightPx = 10`,
`bufferItemCount = 1`, `containerHeightPx = 0` and
`scrollOffsetPx = 1000`, the code computes `startIndex = 99` and
`endIndex = 0`: `startIndex` exceeds both `endIndex` and `L - 1`, so it is
not clamped as claimed. -/
theorem C1_counterexample :
    startIndex overscrollProps ⟨1000, 0⟩ = 99 ∧
    endIndex overscrollProps ⟨1000, 0⟩ = 0 ∧
    ¬(startIndex overscrollProps ⟨1000, 0⟩ ≤ endIndex overscrollProps ⟨1000, 0⟩) ∧
    ¬(startIndex overscrollProps ⟨1000, 0⟩ ≤ (overscrollProps.data.length : ℤ) - 1) := by
  have hb : buffer overscrollProps = 1 := rfl
  have hlen : overscrollProps.data.length = 1 := rfl
  have hs : startIndex overscrollProps ⟨1000, 0⟩ = 99 := by
    apply startIndex_eval _ _ _ (by norm_num [overscrollProps]) <;>
      rw [hb] <;> simp only [overscrollProps, le_max_iff, max_lt_iff] <;> norm_num
  have he : endIndex overscrollProps ⟨1000, 0⟩ = 0 := by
    rw [endIndex_eval _ _ 101 (by norm_num [overscrollProps])
      (by rw [hb]; simp only [overscrollProps]; norm_num)
      (by rw [hb]; simp only [overscrollProps]; norm_num)]
    rw [hlen]; norm_num
  refine ⟨hs, he, ?_, ?_⟩ <;> rw [hs] <;> first
    | (rw [he]; norm_num)
    | (rw [hlen]; norm_num)

/-- C1 (amended): for every dataset length `L >= 1`, every non-negative
`scrollOffsetPx` that does not exceed the content height
`L * itemHeightPx`, every `containerHeightPx >= 0`, every
`itemHeightPx > 0` and every `bufferItemCount`, the computed window
satisfies `0 <= startIndex <= endIndex <= L - 1`.  (The code never clamps
`startIndex`; the bound on the scroll offset, which the host scroll
container enforces at run time, is what keeps `startIndex` in range.) -/
theorem C1_window_bounds (p : Props) (st : ListState)
    (hh : 0 < p.itemHeight) (hs : 0 ≤ st.scrollTop) (hc : 0 ≤ st.containerHeight)
    (hL : 1 ≤ p.data.length)
    (hmax : st.scrollTop ≤ (p.data.length : ℚ) * p.itemHeight) :
    0 ≤ startIndex p st ∧ startIndex p st ≤ endIndex p st ∧
      endIndex p st ≤ (p.data.length : ℤ) - 1 := by
  have hb1 : (1:ℚ) ≤ (buffer p : ℚ) := by exact_mod_cast one_le_buffer p
  have hb0 : (0:ℚ) ≤ (buffer p : ℚ) := by positivity
  have hbh : p.itemHeight ≤ (buffer p : ℚ) * p.itemHeight :=
    le_mul_of_one_le_left hh.le hb1
  have hL1 : (1:ℚ) ≤ (p.data.length : ℚ) := by exact_mod_cast hL
  have hA : max 0 (st.scrollTop - (buffer p : ℚ) * p.itemHeight) ≤
      ((p.data.length : ℚ) - 1) * p.itemHeight := by
    apply max_le
    · exact mul_nonneg (by linarith) hh.le
    · nlinarith
  have hstart_le : startIndex p st ≤ (p.data.length : ℤ) - 1 := by
    have h2 : max 0 (st.scrollTop - (buffer p : ℚ) * p.itemHeight) / p.itemHeight ≤
        (((p.data.length : ℤ) - 1 : ℤ) : ℚ) := by
      rw [div_le_iff₀ hh]; push_cast; linarith
    calc startIndex p st ≤ ⌊(((p.data.length : ℤ) - 1 : ℤ) : ℚ)⌋ := Int.floor_mono h2
      _ = (p.data.length : ℤ) - 1 := Int.floor_intCast _
  have hnum : max 0 (st.scrollTop - (buffer p : ℚ) * p.itemHeight) ≤
      st.scrollTop + st.containerHeight + (buffer p : ℚ) * p.itemHeight := by
    apply max_le
    · have := mul_nonneg hb0 hh.le
      linarith
    · have := mul_nonneg hb0 hh.le
      linarith
  have hstart_le_ceil : startIndex p st ≤
      ⌈(st.scrollTop + st.containerHeight + (buffer p : ℚ) * p.itemHeight) /
        p.itemHeight⌉ :=
    le_trans (Int.floor_mono ((div_le_div_iff_of_pos_right hh).mpr hnum))
      (Int.floor_le_ceil _)
  exact ⟨startIndex_nonneg p st hh, le_min hstart_le hstart_le_ceil,
    min_le_left _ _⟩

/-- Witness for C1 at `L = 6`, `itemHeightPx = 10`, `bufferItemCount = 1`,
`scrollOffsetPx = 15`, `containerHeightPx = 10`. -/
theorem C1_window_bounds_witness :
    ((0:ℚ) < sixProps.itemHeight ∧ (0:ℚ) ≤ (15:ℚ) ∧ (0:ℚ) ≤ (10:ℚ) ∧
      1 ≤ sixProps.data.length ∧
      (15:ℚ) ≤ (sixProps.data.length : ℚ) * sixProps.itemHeight) ∧
    (0 ≤ startIndex sixProps ⟨15, 10⟩ ∧
      startIndex sixProps ⟨15, 10⟩ ≤ endIndex sixProps ⟨15, 10⟩ ∧
      endIndex sixProps ⟨15, 10⟩ ≤ (sixProps.data.length : ℤ) - 1) := by
  have h1 : (0:ℚ) < sixProps.itemHeight := by norm_num [sixProps]
  have h4 : 1 ≤ sixProps.data.length := by norm_num [sixProps]
  have h5 : (15:ℚ) ≤ (sixProps.data.length : ℚ) * sixProps.itemHeight := by
    norm_num [sixProps]
  exact ⟨⟨h1, by norm_num, by norm_num, h4, h5⟩,
    C1_window_bounds sixProps ⟨15, 10⟩ h1 (by norm_num) (by norm_num) h4 h5⟩

/-- C2 counterexample: with `L = 6`, `itemHeightPx = 10`,
`bufferItemCount = 1`, `containerHeightPx = 10`, `scrollOffsetPx = 15`,
the materialized slice has `endIndex - startIndex + 1 = 5` items while the
claimed bound is `ceil(10/10) + 2*1 + 1 = 4`. -/
theorem C2_counterexample :
    startIndex sixProps ⟨15, 10⟩ = 0 ∧ endIndex sixProps ⟨15, 10⟩ = 4 ∧
    ¬(endIndex sixProps ⟨15, 10⟩ - startIndex sixProps ⟨15, 10⟩ + 1 ≤
        ⌈(10:ℚ) / sixProps.itemHeight⌉ + 2 * 1 + 1) := by
  have hb : buffer sixProps = 1 := rfl
  have hlen : sixProps.data.length = 6 := rfl
  have hceil : ⌈(10:ℚ) / sixProps.itemHeight⌉ = 1 := by
    apply ceil_div_eq (by norm_num [sixProps]) <;> norm_num [sixProps]
  have hs : startIndex sixProps ⟨15, 10⟩ = 0 := by
    apply startIndex_eval _ _ _ (by norm_num [sixProps]) <;>
      rw [hb] <;> simp only [sixProps, le_max_iff, max_lt_iff] <;> norm_num
  have he : endIndex sixProps ⟨15, 10⟩ = 4 := by
    rw [endIndex_eval _ _ 4 (by norm_num [sixProps])
      (by rw [hb]; simp only [sixProps]; norm_num)
      (by rw [hb]; simp only [sixProps]; norm_num)]
    rw [hlen]
    norm_num
  refine ⟨hs, he, ?_⟩
  rw [hs, he, hceil]
  decide

/-- C2 (amended): for every dataset length `L`, every non-negative
`scrollOffsetPx`, every `containerHeightPx >= 0` and every
`itemHeightPx > 0`, the materialized slice size satisfies
`endIndex - startIndex + 1 <= ceil(containerHeightPx / itemHeightPx)
+ 2 * effectiveBuffer + 2`, independent of `L`, where `effectiveBuffer`
is the buffer the window computation actually uses (the configured
`bufferItemCount` when it is at least 1, the default 5 when it is 0 or
absent).  The slack over the claimed bound is one item, reached when both
window boundaries fall strictly inside items. -/
theorem C2_slice_size_bound (p : Props) (st : ListState)
    (hh : 0 < p.itemHeight) (_hs : 0 ≤ st.scrollTop) (_hc : 0 ≤ st.containerHeight) :
    endIndex p st - startIndex p st + 1 ≤
      ⌈st.containerHeight / p.itemHeight⌉ + 2 * (buffer p : ℤ) + 2 := by
  have hC : endIndex p st ≤
      ⌈(st.scrollTop + st.containerHeight + (buffer p : ℚ) * p.itemHeight) /
        p.itemHeight⌉ :=
    min_le_right _ _
  rcases le_total st.scrollTop ((buffer p : ℚ) * p.itemHeight) with hsb | hbs
  · have hF : 0 ≤ startIndex p st := startIndex_nonneg p st hh
    have h1 : (st.scrollTop + st.containerHeight + (buffer p : ℚ) * p.itemHeight) /
        p.itemHeight ≤
        st.containerHeight / p.itemHeight + ((2 * (buffer p : ℤ) : ℤ) : ℚ) := by
      have h2 : st.containerHeight / p.itemHeight + ((2 * (buffer p : ℤ) : ℤ) : ℚ) =
          (st.containerHeight + 2 * (buffer p : ℚ) * p.itemHeight) / p.itemHeight := by
        field_simp
      rw [h2]
      apply (div_le_div_iff_of_pos_right hh).mpr
      linarith
    have h3 := Int.ceil_mono h1
    rw [Int.ceil_add_int] at h3
    omega
  · have hmax : max 0 (st.scrollTop - (buffer p : ℚ) * p.itemHeight) =
        st.scrollTop - (buffer p : ℚ) * p.itemHeight :=
      max_eq_right (sub_nonneg.mpr hbs)
    have hF : startIndex p st =
        ⌊(st.scrollTop - (buffer p : ℚ) * p.itemHeight) / p.itemHeight⌋ := by
      unfold startIndex
      rw [hmax]
    have hkey : (st.scrollTop + st.containerHeight + (buffer p : ℚ) * p.itemHeight) /
        p.itemHeight =
        (st.scrollTop - (buffer p : ℚ) * p.itemHeight) / p.itemHeight +
          st.containerHeight / p.itemHeight + ((2 * (buffer p : ℤ) : ℤ) : ℚ) := by
      field_simp
      ring
    have h4 := Int.ceil_add_le
      ((st.scrollTop - (buffer p : ℚ) * p.itemHeight) / p.itemHeight)
      (st.containerHeight / p.itemHeight)
    have h5 := Int.ceil_le_floor_add_one
      ((st.scrollTop - (buffer p : ℚ) * p.itemHeight) / p.itemHeight)
    rw [hkey, Int.ceil_add_int] at hC
    rw [hF]
    omega

/-- Witness for C2 at `L = 6`, `itemHeightPx = 10`, `bufferItemCount = 1`,
`scrollOffsetPx = 15`, `containerHeightPx = 10`. -/
theorem C2_slice_size_bound_witness :
    ((0:ℚ) < sixProps.itemHeight ∧ (0:ℚ) ≤ (15:ℚ) ∧ (0:ℚ) ≤ (10:ℚ)) ∧
    endIndex sixProps ⟨15, 10⟩ - startIndex sixProps ⟨15, 10⟩ + 1 ≤
      ⌈(10:ℚ) / sixProps.itemHeight⌉ + 2 * (buffer sixProps : ℤ) + 2 :=
  ⟨⟨by norm_num [sixProps], by norm_num, by norm_num⟩,
    C2_slice_size_bound sixProps ⟨15, 10⟩ (by norm_num [sixProps]) (by norm_num)
      (by norm_num)⟩

/-- C5: for every dataset length `L` and every computed window, the render
outputs satisfy `totalHeightPx = L * itemHeightPx` (independent of what is
materialized) and `offsetPx = startIndex * itemHeightPx`. -/
theorem C5_render_outputs (p : Props) (st : ListState) :
    totalHeight p = (p.data.length : ℚ) * p.itemHeight ∧
    offsetY p st = (startIndex p st : ℚ) * p.itemHeight :=
  ⟨rfl, rfl⟩

/-- C6: with `L = 100000`, `itemHeightPx = 60`, `containerHeightPx = 600`,
`bufferItemCount = 3`: at `scrollOffsetPx = 0` the window is
`startIndex = 0`, `endIndex = 13` (14 items); at `scrollOffsetPx = 6000`
the window is `startIndex = 97`, `endIndex = 113`. -/
theorem C6_scenarios :
    startIndex scenarioProps ⟨0, 600⟩ = 0 ∧
    endIndex scenarioProps ⟨0, 600⟩ = 13 ∧
    endIndex scenarioProps ⟨0, 600⟩ - startIndex scenarioProps ⟨0, 600⟩ + 1 = 14 ∧
    startIndex scenarioProps ⟨6000, 600⟩ = 97 ∧
    endIndex scenarioProps ⟨6000, 600⟩ = 113 := by
  have hb : buffer scenarioProps = 3 := rfl
  have hlen : scenarioProps.data.length = 100000 := List.length_replicate 100000 []
  have hs0 : startIndex scenarioProps ⟨0, 600⟩ = 0 := by
    apply startIndex_eval _ _ _ (by norm_num [scenarioProps]) <;>
      rw [hb] <;> simp only [scenarioProps, le_max_iff, max_lt_iff] <;> norm_num
  have he0 : endIndex scenarioProps ⟨0, 600⟩ = 13 := by
    rw [endIndex_eval _ _ 13 (by norm_num [scenarioProps])
      (by rw [hb]; simp only [scenarioProps]; norm_num)
      (by rw [hb]; simp only [scenarioProps]; norm_num)]
    rw [hlen]; norm_num
  have hs1 : startIndex scenarioProps ⟨6000, 600⟩ = 97 := by
    apply startIndex_eval _ _ _ (by norm_num [scenarioProps]) <;>
      rw [hb] <;> simp only [scenarioProps, le_max_iff, max_lt_iff] <;> norm_num
  have he1 : endIndex scenarioProps ⟨6000, 600⟩ = 113 := by
    rw [endIndex_eval _ _ 113 (by norm_num [scenarioProps])
      (by rw [hb]; simp only [scenarioProps]; norm_num)
      (by rw [hb]; simp only [scenarioProps]; norm_num)]
    rw [hlen]; norm_num
  refine ⟨hs0, he0, ?_, hs1, he1⟩
  rw [hs0, he0]
  norm_num

/-- C9: if the caller explicitly passes `bufferItemCount = 0`, the
effective buffer used for window computation is the default `5`, not `0`:
the default is applied to every falsy value, not only to an absent one. -/
theorem C9_zero_buffer_default (p : Props) (st : ListState) (h : p.buffer = some 0) :
    buffer p = 5 ∧
    startIndex p st = startIndex { p with buffer := some 5 } st ∧
    endIndex p st = endIndex { p with buffer := some 5 } st := by
  have hb : buffer p = 5 := by unfold buffer; rw [h]; rfl
  have hb5 : buffer { p with buffer := some 5 } = 5 := rfl
  refine ⟨hb, ?_, ?_⟩
  · unfold startIndex; rw [hb, hb5]
  · unfold endIndex; rw [hb, hb5]

/-- C7: when the dataset is empty (`L = 0`), the window is empty
(`endIndex < startIndex`), `totalHeightPx = 0`, and no items are emitted,
for every scroll offset and container height. -/
theorem C7_empty_dataset (p : Props) (st : ListState) (hdata : p.data = [])
    (hh : 0 < p.itemHeight) :
    visibleData p st = [] ∧ renderedItems p st = [] ∧ totalHeight p = 0 ∧
      endIndex p st < startIndex p st := by
  have hvis : visibleData p st = [] := by
    unfold visibleData
    rw [hdata]
    exact jsSlice_nil _ _
  have hrows : renderedItems p st = [] := by
    unfold renderedItems
    rw [hvis]
    rfl
  have htot : totalHeight p = 0 := by
    unfold totalHeight
    rw [hdata]
    simp
  have hlen1 : (p.data.length : ℤ) - 1 = -1 := by rw [hdata]; rfl
  have hend : endIndex p st ≤ -1 := by
    unfold endIndex
    rw [hlen1]
    exact min_le_left _ _
  exact ⟨hvis, hrows, htot,
    lt_of_le_of_lt hend (lt_of_lt_of_le (by norm_num) (startIndex_nonneg p st hh))⟩

/-- Witness for C7 at `itemHeightPx = 10`, `scrollOffsetPx = 123`,
`containerHeightPx = 456`. -/
theorem C7_empty_dataset_witness :
    (emptyProps.data = [] ∧ (0:ℚ) < emptyProps.itemHeight) ∧
    (visibleData emptyProps ⟨123, 456⟩ = [] ∧
      renderedItems emptyProps ⟨123, 456⟩ = [] ∧
      totalHeight emptyProps = 0 ∧
      endIndex emptyProps ⟨123, 456⟩ < startIndex emptyProps ⟨123, 456⟩) :=
  ⟨⟨rfl, by norm_num [emptyProps]⟩,
    C7_empty_dataset emptyProps ⟨123, 456⟩ rfl (by norm_num [emptyProps])⟩

/-- C8: shrinking `containerHeightPx` from 600 to 300 while
`scrollOffsetPx`, `itemHeightPx`, `bufferItemCount` and the dataset are
unchanged leaves `startIndex` unchanged, does not increase `endIndex`, and
only reduces (or leaves equal) the window's item count: the window narrows
from the end, not by shifting its start. -/
theorem C8_resize_narrows (p : Props) (s : ℚ) (hh : 0 < p.itemHeight) (hs : 0 ≤ s) :
    startIndex p ⟨s, 300⟩ = startIndex p ⟨s, 600⟩ ∧
    endIndex p ⟨s, 300⟩ ≤ endIndex p ⟨s, 600⟩ ∧
    (visibleData p ⟨s, 300⟩).length ≤ (visibleData p ⟨s, 600⟩).length := by
  have hmono : endIndex p ⟨s, 300⟩ ≤ endIndex p ⟨s, 600⟩ := by
    unfold endIndex
    apply min_le_min (le_refl _)
    apply Int.ceil_mono
    apply (div_le_div_iff_of_pos_right hh).mpr
    dsimp only
    linarith
  have hfin : 0 ≤ endIndex p ⟨s, 300⟩ + 1 := by
    have := neg_one_le_endIndex p ⟨s, 300⟩ hh hs (by norm_num)
    omega
  refine ⟨rfl, hmono, ?_⟩
  exact jsSlice_length_mono p.data (startIndex p ⟨s, 300⟩) _ _ hfin (by omega)

/-- Witness for C8 at `L = 6`, `itemHeightPx = 10`, `bufferItemCount = 1`,
`scrollOffsetPx = 15`. -/
theorem C8_resize_narrows_witness :
    ((0:ℚ) < sixProps.itemHeight ∧ (0:ℚ) ≤ (15:ℚ)) ∧
    (startIndex sixProps ⟨15, 300⟩ = startIndex sixProps ⟨15, 600⟩ ∧
      endIndex sixProps ⟨15, 300⟩ ≤ endIndex sixProps ⟨15, 600⟩ ∧
      (visibleData sixProps ⟨15, 300⟩).length ≤ (visibleData sixProps ⟨15, 600⟩).length) :=
  ⟨⟨by norm_num [sixProps], by norm_num⟩,
    C8_resize_narrows sixProps 15 (by norm_num [sixProps]) (by norm_num)⟩

/-- C10: for every dataset, scroll offset and container height (with
`itemHeightPx > 0`), every emitted `(key, item, absoluteIndex)` triple
satisfies `absoluteIndex = startIndex + position` and
`item = dataset[absoluteIndex]` (an in-bounds read), and when the computed
index range is inverted or lies beyond the dataset nothing is emitted: the
slice extraction never produces undefined entries or an out-of-bounds
read. -/
theorem C10_slice_safety (p : Props) (st : ListState) (hh : 0 < p.itemHeight)
    (hs : 0 ≤ st.scrollTop) (hc : 0 ≤ st.containerHeight) :
    (∀ (i : ℕ) (k : JSVal) (item : Item) (a : ℤ),
        (renderedItems p st).get? i = some (k, item, a) →
        a = startIndex p st + i ∧ p.data.get? a.toNat = some item) ∧
    (endIndex p st < startIndex p st → renderedItems p st = []) ∧
    ((p.data.length : ℤ) ≤ startIndex p st → renderedItems p st = []) := by
  have ha : 0 ≤ startIndex p st := startIndex_nonneg p st hh
  have hb : 0 ≤ endIndex p st + 1 := by
    have := neg_one_le_endIndex p st hh hs hc
    omega
  refine ⟨?_, ?_, ?_⟩
  · intro i k item a hget
    unfold renderedItems at hget
    rw [renderRows_get?] at hget
    cases hvis : (visibleData p st).get? i with
    | none => rw [hvis] at hget; simp at hget
    | some it =>
      rw [hvis] at hget
      simp only [Option.map] at hget
      have hlt : i < (visibleData p st).length := by
        by_contra hge
        rw [List.get?_eq_none.mpr (le_of_not_lt hge)] at hvis
        exact Option.noConfusion hvis
      have hdata := jsSlice_get? p.data (startIndex p st) (endIndex p st + 1) ha hb i
        (by unfold visibleData at hlt; exact hlt)
      obtain ⟨hk, hitem, haeq⟩ : k = itemKey p it (0 + i) ∧ item = it ∧
          a = startIndex p st + ((0 + i : ℕ) : ℤ) := by
        have := hget
        injection this with h1
        injection h1 with hk hrest
        injection hrest with hitem haeq
        exact ⟨hk.symm, hitem.symm, haeq.symm⟩
      have haeq2 : a = startIndex p st + i := by
        rw [haeq]
        norm_num
      refine ⟨haeq2, ?_⟩
      have htn : a.toNat = (startIndex p st).toNat + i := by omega
      rw [htn, ← hdata]
      unfold visibleData at hvis
      rw [hvis, hitem]
  · intro hlt
    unfold renderedItems
    rw [show visibleData p st = [] from
      jsSlice_eq_nil_of_le p.data _ _ ha hb (by omega)]
    rfl
  · intro hge
    unfold renderedItems
    rw [show visibleData p st = [] from
      jsSlice_eq_nil_of_len_le p.data _ _ ha hge]
    rfl

/-- Witness for C10 at `L = 6`, `itemHeightPx = 10`, `bufferItemCount = 1`,
`scrollOffsetPx = 15`, `containerHeightPx = 10`. -/
theorem C10_slice_safety_witness :
    ((0:ℚ) < sixProps.itemHeight ∧ (0:ℚ) ≤ (15:ℚ) ∧ (0:ℚ) ≤ (10:ℚ)) ∧
    ((∀ (i : ℕ) (k : JSVal) (item : Item) (a : ℤ),
        (renderedItems sixProps ⟨15, 10⟩).get? i = some (k, item, a) →
        a = startIndex sixProps ⟨15, 10⟩ + i ∧
          sixProps.data.get? a.toNat = some item) ∧
      (endIndex sixProps ⟨15, 10⟩ < startIndex sixProps ⟨15, 10⟩ →
        renderedItems sixProps ⟨15, 10⟩ = []) ∧
      ((sixProps.data.length : ℤ) ≤ startIndex sixProps ⟨15, 10⟩ →
        renderedItems sixProps ⟨15, 10⟩ = [])) :=
  ⟨⟨by norm_num [sixProps], by norm_num, by norm_num⟩,
    C10_slice_safety sixProps ⟨15, 10⟩ (by norm_num [sixProps]) (by norm_num)
      (by norm_num)⟩

theorem keyedProps_rendered :
    renderedItems keyedProps ⟨0, 20⟩ =
      [(JSVal.vnum 7, [("id", JSVal.vnum 7)], 0),
       (JSVal.vnum 1, [("id", JSVal.vnum 0)], 1)] := by
  have hb : buffer keyedProps = 1 := rfl
  have hstart : startIndex keyedProps ⟨0, 20⟩ = 0 := by
    apply startIndex_eval _ _ _ (by norm_num [keyedProps]) <;>
      rw [hb] <;> simp only [keyedProps, le_max_iff, max_lt_iff] <;> norm_num
  have hend : endIndex keyedProps ⟨0, 20⟩ = 1 := by
    rw [endIndex_eval _ _ 3 (by norm_num [keyedProps])
      (by rw [hb]; simp only [keyedProps]; norm_num)
      (by rw [hb]; simp only [keyedProps]; norm_num)]
    decide
  have hvd : visibleData keyedProps ⟨0, 20⟩ = keyedProps.data := by
    unfold visibleData
    rw [hstart, hend]
    decide
  unfold renderedItems
  rw [hstart, hvd]
  decide

/-- C4 counterexample: in `keyedProps` the second dataset record carries
the declared key field with the present, non-null value `0`; the emitted
key for that row is nevertheless the positional `v-for` index `1`, because
the template's `item[keyField] || index` treats the falsy value `0` as
absent. -/
theorem C4_counterexample :
    getField [("id", JSVal.vnum 0)] (keyField keyedProps) = JSVal.vnum 0 ∧
    (renderedItems keyedProps ⟨0, 20⟩).get? 1 =
      some (JSVal.vnum 1, [("id", JSVal.vnum 0)], 1) ∧
    JSVal.vnum 1 ≠ JSVal.vnum 0 := by
  refine ⟨rfl, ?_, by decide⟩
  rw [keyedProps_rendered]
  decide

/-- C4 (amended): every emitted key equals `item[keyField]` when that
value is truthy, and the item's relative position inside the emitted slice
otherwise — not the absolute dataset index, and a present-but-falsy key
value (such as `0`) also falls back to the position.  The absolute index
`startIndex + position` is what the slot receives. -/
theorem C4_keys (p : Props) (st : ListState) (i : ℕ) (k : JSVal) (item : Item) (a : ℤ)
    (hget : (renderedItems p st).get? i = some (k, item, a)) :
    k = (if (getField item (keyField p)).truthy then getField item (keyField p)
      else JSVal.vnum i) ∧
    a = startIndex p st + i := by
  unfold renderedItems at hget
  rw [renderRows_get?] at hget
  cases hvis : (visibleData p st).get? i with
  | none => rw [hvis] at hget; simp at hget
  | some it =>
    rw [hvis] at hget
    simp only [Option.map] at hget
    obtain ⟨hk, hitem, haeq⟩ : k = itemKey p it (0 + i) ∧ item = it ∧
        a = startIndex p st + ((0 + i : ℕ) : ℤ) := by
      injection hget with h1
      injection h1 with hk hrest
      injection hrest with hitem haeq
      exact ⟨hk.symm, hitem.symm, haeq.symm⟩
    constructor
    · rw [hk, hitem]
      simp [itemKey]
    · rw [haeq]
      norm_num

/-- Witness for C4 at the first row of `keyedProps` (truthy key value `7`,
slice position `0`). -/
theorem C4_keys_witness :
    (renderedItems keyedProps ⟨0, 20⟩).get? 0 =
      some (JSVal.vnum 7, [("id", JSVal.vnum 7)], 0) ∧
    (JSVal.vnum 7 =
      (if (getField [("id", JSVal.vnum 7)] (keyField keyedProps)).truthy
        then getField [("id", JSVal.vnum 7)] (keyField keyedProps)
        else JSVal.vnum (0:ℕ)) ∧
      (0:ℤ) = startIndex keyedProps ⟨0, 20⟩ + (0:ℕ)) := by
  have hget : (renderedItems keyedProps ⟨0, 20⟩).get? 0 =
      some (JSVal.vnum 7, [("id", JSVal.vnum 7)], 0) := by
    rw [keyedProps_rendered]
    decide
  exact ⟨hget, C4_keys keyedProps ⟨0, 20⟩ 0 _ _ _ hget⟩

/-- Witness for C9 at the concrete props `zeroBufferProps`. -/
theorem C9_zero_buffer_default_witness :
    zeroBufferProps.buffer = some 0 ∧
    buffer zeroBufferProps = 5 ∧
    startIndex zeroBufferProps ⟨0, 600⟩ =
      startIndex { zeroBufferProps with buffer := some 5 } ⟨0, 600⟩ ∧
    endIndex zeroBufferProps ⟨0, 600⟩ =
      endIndex { zeroBufferProps with buffer := some 5 } ⟨0, 600⟩ :=
  ⟨rfl, C9_zero_buffer_default zeroBufferProps ⟨0, 600⟩ rfl⟩

end VirtualList
